import Mathlib

/-!
Verification development for the TavernTapes recording and session-persistence
core.  The TypeScript services (AudioService, SessionService, SettingsService,
CrashRecoveryService, FileSystemService, Validator) are shallowly embedded as
executable Lean definitions over explicit state records; asynchronous store
operations become pure state transformers, wall-clock instants are integer
milliseconds, and fallible operations return `Except`.  Theorems at the end of
the file settle the specification claims against these definitions.
-/

/-! ## String utilities shared by the embedded services -/

/-- Character-wise lowercasing.  On the ASCII session names, notes, tags and
queries handled by the services this agrees with JavaScript
`String.prototype.toLowerCase`. -/
def lowerStr (s : String) : String := String.mk (s.data.map Char.toLower)

/-- Does the first character list begin with the second one?  Auxiliary for the
substring test. -/
def charsBeginWith : List Char → List Char → Bool
  | _, [] => true
  | [], _ :: _ => false
  | c :: cs, d :: ds => c == d && charsBeginWith cs ds

/-- Contiguous-substring test: `infixOf needle hay` models JavaScript
`hay.includes(needle)`. -/
def infixOf (needle : List Char) : List Char → Bool
  | [] => needle.isEmpty
  | c :: cs => charsBeginWith (c :: cs) needle || infixOf needle cs

/-- Model of JavaScript `hay.includes(needle)` on strings. -/
def strIncludes (hay needle : String) : Bool := infixOf needle.data hay.data

/-- The character class matched by `\s` in JavaScript regular expressions
(ECMAScript WhiteSpace and LineTerminator code points). -/
def isJsSpace (c : Char) : Bool :=
  let n := c.toNat
  n == 9 || n == 10 || n == 11 || n == 12 || n == 13 || n == 32 || n == 160 ||
  n == 5760 || (8192 ≤ n && n ≤ 8202) || n == 8232 || n == 8233 ||
  n == 8239 || n == 8287 || n == 12288 || n == 65279

/-- ASCII whitespace, the separator class named by the search claim. -/
def isAsciiWs (c : Char) : Bool :=
  let n := c.toNat
  n == 32 || n == 9 || n == 10 || n == 11 || n == 12 || n == 13

/-- ASCII letters and digits. -/
def isAsciiAlnum (c : Char) : Bool :=
  let n := c.toNat
  (97 ≤ n && n ≤ 122) || (65 ≤ n && n ≤ 90) || (48 ≤ n && n ≤ 57)

/-! ## Validator (src/src/utils/validation.ts) -/

/-- One character of the class in the session-name regular expression
`/^[a-zA-Z0-9\s\-_\.]+$/`: ASCII alphanumeric, JavaScript whitespace,
hyphen, underscore or period. -/
def sessionNameCharOk (c : Char) : Bool :=
  isAsciiAlnum c || isJsSpace c || c == '-' || c == '_' || c == '.'

/-- The regular-expression test `/^[a-zA-Z0-9\s\-_\.]+$/.test(name)`: the name
is non-empty and every character belongs to the class. -/
def sessionNamePatternTest (name : List Char) : Bool :=
  !name.isEmpty && name.all sessionNameCharOk

/-- Model of `Validator.validateSessionName` (validation.ts lines 129-147): the
list of error messages it accumulates.  `!name || name.trim().length === 0`
holds exactly when the name is empty or consists of JavaScript whitespace
only; otherwise the length and pattern checks run. -/
def validateSessionNameErrors (name : List Char) : List String :=
  if name.isEmpty || name.all isJsSpace then
    ["Session name is required"]
  else
    (if name.length > 100 then ["Session name must be 100 characters or less"] else []) ++
    (if name.length < 1 then ["Session name must be at least 1 character"] else []) ++
    (if sessionNamePatternTest name then [] else
      ["Session name can only contain letters, numbers, spaces, hyphens, underscores, and periods"])

/-- The `isValid` field returned by `Validator.validateSessionName`. -/
def validateSessionName (name : List Char) : Bool :=
  (validateSessionNameErrors name).isEmpty

/-- The acceptance predicate exactly as the claim words it: `1 ≤ len(x) ≤ 100`
and every character is an ASCII letter, digit, space, underscore, hyphen or
period.  Stated from the claim for comparison with `validateSessionName`. -/
def specSessionNameOk (name : List Char) : Bool :=
  decide (1 ≤ name.length) && decide (name.length ≤ 100) &&
  name.all (fun c => isAsciiAlnum c || c == ' ' || c == '_' || c == '-' || c == '.')

/-! ## SettingsService (src/src/services/SettingsService.ts) -/

/-- The `theme` setting values. -/
inductive Theme
  | light
  | dark
  deriving DecidableEq, Repr

/-- The `audioFormat` / `format` setting values. -/
inductive AudioFormat
  | wav
  | mp3
  deriving DecidableEq, Repr

/-- The `Settings` interface: the full snapshot returned by `getSettings`,
with both alias fields materialised exactly as in the source. -/
structure Settings where
  theme : Theme
  audioFormat : AudioFormat
  format : AudioFormat
  audioQuality : Int
  quality : Int
  autoSplitEnabled : Bool
  splitInterval : Int
  splitSize : Int
  storageLocation : String
  inputDeviceId : String
  deriving DecidableEq, Repr

/-- `defaultSettings` from SettingsService.ts lines 14-25. -/
def defaultSettings : Settings :=
  { theme := Theme.dark, audioFormat := AudioFormat.wav, format := AudioFormat.wav,
    audioQuality := 320, quality := 320, autoSplitEnabled := true,
    splitInterval := 30, splitSize := 500,
    storageLocation := "TavernTapes_Recordings", inputDeviceId := "default" }

/-- The IndexedDB `settings` object store: one optional typed record per
recognised key (`keyPath` is the setting name, so a `put` replaces the record
for that key).  The same shape serves as a `Partial<Settings>` update map. -/
structure SettingsStore where
  theme : Option Theme := none
  audioFormat : Option AudioFormat := none
  format : Option AudioFormat := none
  audioQuality : Option Int := none
  quality : Option Int := none
  autoSplitEnabled : Option Bool := none
  splitInterval : Option Int := none
  splitSize : Option Int := none
  storageLocation : Option String := none
  inputDeviceId : Option String := none
  deriving DecidableEq, Repr

/-- The store of a freshly created settings database. -/
def emptySettingsStore : SettingsStore := {}

/-- Left-biased choice between optional values. -/
def overrideOpt (a b : Option α) : Option α :=
  match a with
  | some v => some v
  | none => b

/-- `SettingsService.updateSettings(updates)`: each entry of the update map is
`put` into the store under its key, replacing any previous record. -/
def updateSettings (st upd : SettingsStore) : SettingsStore :=
  { theme := overrideOpt upd.theme st.theme,
    audioFormat := overrideOpt upd.audioFormat st.audioFormat,
    format := overrideOpt upd.format st.format,
    audioQuality := overrideOpt upd.audioQuality st.audioQuality,
    quality := overrideOpt upd.quality st.quality,
    autoSplitEnabled := overrideOpt upd.autoSplitEnabled st.autoSplitEnabled,
    splitInterval := overrideOpt upd.splitInterval st.splitInterval,
    splitSize := overrideOpt upd.splitSize st.splitSize,
    storageLocation := overrideOpt upd.storageLocation st.storageLocation,
    inputDeviceId := overrideOpt upd.inputDeviceId st.inputDeviceId }

/-- `SettingsService.getSettings`: starts from `defaultSettings` and folds the
stored records over it.  IndexedDB `getAll` yields records in ascending key
order, so the switch runs on the keys in the order `audioFormat`,
`audioQuality`, `autoSplitEnabled`, `format`, `inputDeviceId`, `quality`,
`splitInterval`, `splitSize`, `storageLocation`, `theme`; either alias key
assigns both alias fields.  The source's `typeof` guards always pass here
because the store is typed. -/
def getSettings (st : SettingsStore) : Settings :=
  let s0 := defaultSettings
  let s1 := match st.audioFormat with
    | some v => { s0 with audioFormat := v, format := v }
    | none => s0
  let s2 := match st.audioQuality with
    | some v => { s1 with audioQuality := v, quality := v }
    | none => s1
  let s3 := match st.autoSplitEnabled with
    | some v => { s2 with autoSplitEnabled := v }
    | none => s2
  let s4 := match st.format with
    | some v => { s3 with audioFormat := v, format := v }
    | none => s3
  let s5 := match st.inputDeviceId with
    | some v => { s4 with inputDeviceId := v }
    | none => s4
  let s6 := match st.quality with
    | some v => { s5 with audioQuality := v, quality := v }
    | none => s5
  let s7 := match st.splitInterval with
    | some v => { s6 with splitInterval := v }
    | none => s6
  let s8 := match st.splitSize with
    | some v => { s7 with splitSize := v }
    | none => s7
  let s9 := match st.storageLocation with
    | some v => { s8 with storageLocation := v }
    | none => s8
  match st.theme with
  | some v => { s9 with theme := v }
  | none => s9

/-- First defined of two optional values. -/
def firstSome (a b : Option α) : Option α :=
  match a with
  | some v => some v
  | none => b

/-- The read the claim predicts, stated from the claim's words: the update map
overlaid on the defaults for every missing key, with either written alias
observed through both alias fields. -/
def specSettingsRead (x : SettingsStore) : Settings :=
  { theme := x.theme.getD Theme.dark,
    audioFormat := (firstSome x.audioFormat x.format).getD AudioFormat.wav,
    format := (firstSome x.audioFormat x.format).getD AudioFormat.wav,
    audioQuality := (firstSome x.audioQuality x.quality).getD 320,
    quality := (firstSome x.audioQuality x.quality).getD 320,
    autoSplitEnabled := x.autoSplitEnabled.getD true,
    splitInterval := x.splitInterval.getD 30,
    splitSize := x.splitSize.getD 500,
    storageLocation := x.storageLocation.getD "TavernTapes_Recordings",
    inputDeviceId := x.inputDeviceId.getD "default" }

/-- An update map does not write conflicting values through the two alias key
pairs. -/
def aliasConsistent (x : SettingsStore) : Prop :=
  (x.audioFormat = none ∨ x.format = none ∨ x.audioFormat = x.format) ∧
  (x.audioQuality = none ∨ x.quality = none ∨ x.audioQuality = x.quality)

instance (x : SettingsStore) : Decidable (aliasConsistent x) := by
  unfold aliasConsistent
  infer_instance

/-! ## Session catalog data (src/src/types/Session.ts) -/

/-- `SessionMetadata` from types/Session.ts. -/
structure SessionMetadata where
  sessionName : String
  duration : Nat
  format : String
  quality : Nat
  fileSize : Nat
  deriving DecidableEq, Repr

/-- `Session` from types/Session.ts; the optional `notes` and `tags` arrays
are modelled as lists (absent behaves as empty in every consumer). -/
structure Session where
  id : String
  createdAt : Int
  metadata : SessionMetadata
  filePath : String
  notes : List String := []
  tags : List String := []
  deriving DecidableEq, Repr

/-- `RecordingMetadata` from AudioService.ts; `startTime` is the wall-clock
instant in integer milliseconds. -/
structure RecordingMetadata where
  sessionName : String
  startTime : Int
  duration : Nat
  fileSize : Nat
  format : String
  quality : Nat
  deriving DecidableEq, Repr

/-! ## FileSystemService (blob store over IndexedDB) -/

/-- `FileReference` from FileSystemService.ts. -/
structure FileReference where
  id : String
  path : String
  metadata : RecordingMetadata
  deriving DecidableEq, Repr

/-- One record of the `audioBlobs` object store: `{ id, blob, path }`, with the
blob represented by its byte size. -/
structure AudioBlobRec where
  id : String
  path : String
  size : Nat
  deriving DecidableEq, Repr

/-- The state of the `tavernTapesFiles` database: the `files` collection of
file references and the `audioBlobs` collection of blob records, both keyed
by `id`. -/
structure FileSystemState where
  files : List FileReference := []
  audioBlobs : List AudioBlobRec := []
  deriving DecidableEq, Repr

/-- `FileSystemService.getFileReference`: lookup in the `files` store. -/
def getFileReference (id : String) (st : FileSystemState) : Option FileReference :=
  st.files.find? (fun f => f.id == id)

/-- `FileSystemService.saveAudioFile`: stores the blob under
`recordings/{id}` and `put`s the file reference; a `put` replaces any record
with the same key. -/
def saveAudioFile (id : String) (size : Nat) (md : RecordingMetadata)
    (st : FileSystemState) : FileReference × FileSystemState :=
  let path := "recordings/" ++ id
  let ref : FileReference := ⟨id, path, md⟩
  (ref,
    { files := (st.files.filter (fun f => f.id != id)) ++ [ref],
      audioBlobs := (st.audioBlobs.filter (fun b => b.id != id)) ++ [⟨id, path, size⟩] })

/-- JavaScript `String.prototype.split(sep)` for a one-character separator:
components are kept even when empty, and the empty string yields one empty
component. -/
def splitOnChar (sep : Char) (l : List Char) : List (List Char) :=
  l.foldr
    (fun c acc =>
      if c == sep then [] :: acc
      else
        match acc with
        | [] => [[c]]
        | w :: ws => (c :: w) :: ws)
    [[]]

/-- The blob id recovered from a path by `path.split('/').pop()`. -/
def pathLastComponent (path : String) : String :=
  String.mk ((splitOnChar '/' path.data).getLastD [])

/-- `FileSystemService.deleteAudioFile`: removes the blob record named by the
path and then the file reference. -/
def deleteAudioFile (ref : FileReference) (st : FileSystemState) :
    Except String FileSystemState :=
  let bid := pathLastComponent ref.path
  if bid.isEmpty then Except.error ("Invalid path format: " ++ ref.path)
  else
    Except.ok
      { files := st.files.filter (fun f => f.id != ref.id),
        audioBlobs := st.audioBlobs.filter (fun b => b.id != bid) }

/-! ## SessionService (current IndexedDB variant) -/

/-- `SessionService.addSession`: `store.add` appends the record to the
`sessions` collection. -/
def addSession (s : Session) (sessions : List Session) : List Session :=
  sessions ++ [s]

/-- `SessionService.searchSessions`: lowercases the whole query once and keeps
the sessions whose name, some tag, or some note contains it as a substring. -/
def searchSessions (query : String) (sessions : List Session) : List Session :=
  let lowerQuery := lowerStr query
  sessions.filter (fun s =>
    strIncludes (lowerStr s.metadata.sessionName) lowerQuery ||
    s.tags.any (fun t => strIncludes (lowerStr t) lowerQuery) ||
    s.notes.any (fun n => strIncludes (lowerStr n) lowerQuery))

/-- `SessionService.deleteSession`: fetches the session's file reference and
deletes the audio file through the blob store; any failure is wrapped.  The
`sessions` collection itself is not touched by this method. -/
def deleteSessionSvc (id : String) (fst : FileSystemState)
    (sessions : List Session) : Except String (FileSystemState × List Session) :=
  match getFileReference id fst with
  | none => Except.error "Failed to delete session"
  | some ref =>
    match deleteAudioFile ref fst with
    | Except.error _ => Except.error "Failed to delete session"
    | Except.ok fst2 => Except.ok (fst2, sessions)

/-- Splits a character list into its maximal runs of non-whitespace
characters (the tokenization named by the search claim). -/
def splitWsChars (l : List Char) : List (List Char) :=
  (l.foldr
    (fun c acc =>
      if isAsciiWs c then [] :: acc
      else
        match acc with
        | [] => [[c]]
        | w :: ws => (c :: w) :: ws)
    []).filter (fun w => !w.isEmpty)

/-- Does one token match a session, as the claim words it: case-insensitive
substring of the name, of some note, or of some tag. -/
def specFieldMatch (tok : List Char) (s : Session) : Bool :=
  infixOf tok (lowerStr s.metadata.sessionName).data ||
  s.notes.any (fun n => infixOf tok (lowerStr n).data) ||
  s.tags.any (fun t => infixOf tok (lowerStr t).data)

/-- Search as the claim words it, stated for comparison with
`searchSessions`: every non-empty whitespace-separated token of the query
must match at least one field. -/
def specSearch (query : String) (sessions : List Session) : List Session :=
  let toks := splitWsChars (lowerStr query).data
  sessions.filter (fun s => toks.all (fun t => specFieldMatch t s))

/-! ## CrashRecoveryService (src/src/services/CrashRecoveryService.ts) -/

/-- The recovery checkpoint held in the single slot, with `startTime` in
integer milliseconds. -/
structure RecoveryState where
  sessionName : String
  startTime : Int
  duration : Nat
  isPaused : Bool
  currentFileReference : Option FileReference := none
  deriving DecidableEq, Repr

/-- `CrashRecoveryService.cleanupStaleRecovery`, run at service construction
(startup): a checkpoint older than 24 hours is removed from the store,
anything younger is kept. -/
def cleanupStaleRecovery (now : Int) (slot : Option RecoveryState) :
    Option RecoveryState :=
  match slot with
  | none => none
  | some st => if now - st.startTime > 86400000 then none else some st

/-! ## AudioService (src/src/services/AudioService.ts) -/

/-- The live RecordRTC recorder: its paused flag and the size of the blob
`getBlob()` currently returns. -/
structure RecorderState where
  paused : Bool := false
  blobSize : Nat := 0
  deriving DecidableEq, Repr

/-- `RecordingOptions` from AudioService.ts. -/
structure RecordingOptions where
  format : String
  quality : Nat
  splitInterval : Option Nat := none
  splitSize : Option Nat := none
  inputDeviceId : Option String := none
  deriving DecidableEq, Repr

/-- The mutable fields of the `AudioService` singleton.  Timers and the level
monitor are booleans recording whether they are running; the media stream
likewise. -/
structure AudioState where
  recorder : Option RecorderState := none
  audioChunks : List Nat := []
  recordingStartTime : Option Int := none
  currentSessionName : String := ""
  isRecording : Bool := false
  isPaused : Bool := false
  recordingTimer : Bool := false
  currentDuration : Nat := 0
  maxChunks : Nat := 100
  lastSplitTime : Int := 0
  stateSaveInterval : Bool := false
  currentSessionId : Option String := none
  currentFileReference : Option FileReference := none
  options : RecordingOptions
  monitoring : Bool := false
  mediaStream : Bool := false
  deriving DecidableEq, Repr

/-- `AudioService.cleanup` (lines 810-877): stops monitoring, timers and state
saving, destroys the recorder, stops the media stream, and resets the
recording state.  `currentSessionName` is not reset. -/
def cleanup (s : AudioState) : AudioState :=
  { s with
      monitoring := false, recordingTimer := false, stateSaveInterval := false,
      recorder := none, mediaStream := false,
      isRecording := false, isPaused := false, recordingStartTime := none,
      currentDuration := 0, currentSessionId := none, currentFileReference := none,
      audioChunks := [], lastSplitTime := 0 }

/-- `AudioService.pauseRecording` (lines 430-437): guarded by
`recorder && isRecording && !isPaused`; otherwise nothing happens. -/
def pauseRecording (s : AudioState) : AudioState :=
  match s.recorder with
  | none => s
  | some r =>
    if s.isRecording && !s.isPaused then
      { s with
          recorder := some { r with paused := true }, isPaused := true,
          recordingTimer := false, monitoring := false }
    else s

/-- `AudioService.resumeRecording` (lines 439-446): guarded by
`recorder && isRecording && isPaused`; otherwise nothing happens. -/
def resumeRecording (s : AudioState) : AudioState :=
  match s.recorder with
  | none => s
  | some r =>
    if s.isRecording && s.isPaused then
      { s with
          recorder := some { r with paused := false }, isPaused := false,
          recordingTimer := true, monitoring := true }
    else s

/-- JavaScript truthiness of an optional numeric option (`undefined` and `0`
are falsy). -/
def optionTruthy : Option Nat → Bool
  | some n => n != 0
  | none => false

/-- The trigger test of `AudioService.checkSplitConditions` (lines 629-649):
with at least one split option truthy and a live recorder, the time trigger
compares minutes since the last split against `splitInterval` and the size
trigger compares the current blob's megabytes against `splitSize`. -/
def splitTriggered (s : AudioState) (now : Int) : Bool :=
  if !optionTruthy s.options.splitInterval && !optionTruthy s.options.splitSize then
    false
  else
    match s.recorder with
    | none => false
    | some r =>
      (optionTruthy s.options.splitInterval &&
        decide (now - s.lastSplitTime ≥ (s.options.splitInterval.getD 0 : Int) * 60000)) ||
      (optionTruthy s.options.splitSize &&
        decide (r.blobSize ≥ (s.options.splitSize.getD 0) * 1048576))

/-- The `ondataavailable` handler installed by `startRecording`
(lines 294-330): while recording and not paused it lazily assigns a session
id, then saves the chunk through the blob store and updates the current file
reference.  It performs no other state change: in particular it neither
consults `checkSplitConditions` nor counts chunks toward the memory guard. -/
def ondataInitial (s : AudioState) (chunkSize : Nat) (freshId : String)
    (fst : FileSystemState) : AudioState × FileSystemState :=
  if s.isRecording && !s.isPaused then
    let sid := match s.currentSessionId with
      | some i => i
      | none => freshId
    let md : RecordingMetadata :=
      { sessionName := s.currentSessionName,
        startTime := s.recordingStartTime.getD 0,
        duration := s.currentDuration, fileSize := chunkSize,
        format := s.options.format, quality := s.options.quality }
    let res := saveAudioFile sid chunkSize md fst
    ({ s with currentSessionId := some sid, currentFileReference := some res.fst },
      res.snd)
  else (s, fst)

/-- `AudioService.saveRecording` (lines 727-762): requires an active session
id, saves the blob as the session's file, and adds a `Session` record built
from the metadata. -/
def saveRecording (s : AudioState) (fst : FileSystemState)
    (sessions : List Session) (blobSize : Nat) (md : RecordingMetadata) :
    Except String (AudioState × FileSystemState × List Session) :=
  match s.currentSessionId with
  | none => Except.error "No active session"
  | some sid =>
    let res := saveAudioFile sid blobSize md fst
    let sess : Session :=
      { id := sid, createdAt := md.startTime,
        metadata :=
          { sessionName := md.sessionName, duration := md.duration,
            format := md.format, quality := md.quality, fileSize := md.fileSize },
        filePath := res.fst.path }
    Except.ok ({ s with currentFileReference := some res.fst }, res.snd,
      addSession sess sessions)

/-- The success path of the `stopRecording` callback (lines 522-591): builds
the final metadata from the retrieved blob (empty-blob fallback applied by the
caller, so the argument is the final size), saves the recording only when the
blob is non-empty, clears the recovery slot, runs `cleanup`, and resolves with
the metadata.  A save failure propagates as a rejection. -/
def stopFinalize (s : AudioState) (fst : FileSystemState)
    (sessions : List Session) (_slot : Option RecoveryState)
    (finalBlobSize : Nat) :
    Except String
      (AudioState × FileSystemState × List Session × Option RecoveryState ×
        RecordingMetadata) :=
  let md : RecordingMetadata :=
    { sessionName := s.currentSessionName,
      startTime := s.recordingStartTime.getD 0,
      duration := s.currentDuration, fileSize := finalBlobSize,
      format := s.options.format, quality := s.options.quality }
  if finalBlobSize > 0 then
    match saveRecording s fst sessions finalBlobSize md with
    | Except.error e => Except.error e
    | Except.ok (s2, fst2, sess2) => Except.ok (cleanup s2, fst2, sess2, none, md)
  else
    Except.ok (cleanup s, fst, sessions, none, md)

/-- The number of milliseconds in the `setTimeout` guarding `stopRecording`
(line 507). -/
def stopTimeoutMs : Nat := 10000

/-- The timeout branch of `stopRecording` (lines 495-507): when the recorder
has not acknowledged the stop within `stopTimeoutMs`, the service runs
`cleanup` and rejects with the timeout error; no metadata is produced. -/
def stopOnTimeout (s : AudioState) : AudioState × Except String RecordingMetadata :=
  (cleanup s, Except.error "Recording stop operation timed out")

/-- The crash-recovery phase at the top of `startRecording` (lines 202-231):
when a checkpoint exists the user is asked through `window.confirm`; on
consent the saved name, start time, duration, pause flag and file reference
are adopted and the slot is cleared, otherwise everything is left as it
was. -/
def startRecoveryPhase (s : AudioState) (slot : Option RecoveryState)
    (confirm : Bool) : AudioState × Option RecoveryState :=
  match slot with
  | none => (s, none)
  | some rs =>
    if confirm then
      ({ s with
          currentSessionName := rs.sessionName,
          recordingStartTime := some rs.startTime,
          currentDuration := rs.duration, isPaused := rs.isPaused,
          currentFileReference := rs.currentFileReference }, none)
    else (s, some rs)

/-- Outcome of the guard section of `startRecording`. -/
inductive StartStep
  | proceed
  | failed (msg : String)
  deriving DecidableEq, Repr

/-- `startRecording` up to the `AlreadyRecording` guard (lines 202-237
together with the catch block of lines 373-396): after the recovery phase,
a recording already in progress raises the error, which the enclosing catch
wraps and rethrows after running `cleanup`; otherwise the method proceeds to
device acquisition (outside this model). -/
def startRecordingGuard (s : AudioState) (slot : Option RecoveryState)
    (confirm : Bool) : (AudioState × Option RecoveryState) × StartStep :=
  let p := startRecoveryPhase s slot confirm
  if p.fst.isRecording then
    ((cleanup p.fst, p.snd),
      StartStep.failed "Failed to start recording: Recording is already in progress")
  else (p, StartStep.proceed)

/-! ## Concrete fixtures used by witnesses and counterexamples -/

/-- A catalog session named `alpha` carrying the tag `beta`. -/
def ceSession : Session :=
  { id := "s1", createdAt := 0,
    metadata :=
      { sessionName := "alpha", duration := 0, format := "wav",
        quality := 320, fileSize := 1 },
    filePath := "recordings/s1", tags := ["beta"] }

/-- Recording metadata of the fixture session `s9`. -/
def c9Metadata : RecordingMetadata :=
  { sessionName := "Camp", startTime := 0, duration := 3, fileSize := 9,
    format := "wav", quality := 320 }

/-- The file reference of the fixture session `s9`. -/
def c9Ref : FileReference :=
  { id := "s9", path := "recordings/s9", metadata := c9Metadata }

/-- A blob store holding exactly the segment of session `s9`. -/
def c9Fst : FileSystemState :=
  { files := [c9Ref],
    audioBlobs := [{ id := "s9", path := "recordings/s9", size := 9 }] }

/-- The catalog record of the fixture session `s9`. -/
def c9Session : Session :=
  { id := "s9", createdAt := 0,
    metadata :=
      { sessionName := "Camp", duration := 3, format := "wav",
        quality := 320, fileSize := 9 },
    filePath := "recordings/s9" }

/-- Options requesting a one-minute split interval. -/
def c1Options : RecordingOptions :=
  { format := "wav", quality := 320, splitInterval := some 1 }

/-- A recording two minutes old that has never split: the time trigger is due. -/
def c1State : AudioState :=
  { recorder := some { paused := false, blobSize := 600 },
    isRecording := true, currentSessionName := "Camp",
    recordingStartTime := some 0, currentDuration := 120,
    recordingTimer := true, stateSaveInterval := true, mediaStream := true,
    currentSessionId := some "sid1", options := c1Options }

/-- A live recording seven seconds in, used for the start-while-recording and
stop fixtures. -/
def c5State : AudioState :=
  { recorder := some { paused := false, blobSize := 42 },
    isRecording := true, currentSessionName := "Live",
    recordingStartTime := some 1000, currentDuration := 7,
    recordingTimer := true, stateSaveInterval := true, mediaStream := true,
    monitoring := true, currentSessionId := some "sid5",
    options := { format := "wav", quality := 320 } }

/-- A paused state with no recorder, for the pause/resume witness. -/
def c10State : AudioState :=
  { recorder := none, isRecording := false, isPaused := false,
    currentDuration := 4, options := { format := "wav", quality := 320 } }

/-- A recovery checkpoint written at millisecond 0. -/
def c7Recovery : RecoveryState :=
  { sessionName := "Campaign 5", startTime := 0, duration := 30, isPaused := false }

/-- An alias-consistent settings update: `format` and `splitInterval` only. -/
def c6Update : SettingsStore :=
  { format := some AudioFormat.mp3, splitInterval := some 60 }

/-! ## Theorems settling the claims -/

/-- C8 counterexample: the name consisting of `a`, TAB, `b` is accepted by the
source validator (the regular expression uses `\s`, which matches TAB), while
the claim's pattern `[A-Za-z0-9 _\-.]+` rejects it. -/
theorem validateSessionName_tab_counterexample :
    validateSessionName ['a', '\t', 'b'] = true ∧
    specSessionNameOk ['a', '\t', 'b'] = false := by
  constructor <;> rfl

/-- C8 (amended): `validate_session_name(x)` accepts iff `x` is not made of
JavaScript whitespace only, `len(x) ≤ 100`, and every character of `x` is an
ASCII letter or digit, a JavaScript whitespace character, a hyphen, an
underscore or a period (so `1 ≤ len(x)` follows). -/
theorem validateSessionName_characterization (name : List Char) :
    validateSessionName name = true ↔
      name.all isJsSpace = false ∧ name.length ≤ 100 ∧
      name.all sessionNameCharOk = true := by
  cases name with
  | nil => simp [validateSessionName, validateSessionNameErrors]
  | cons c cs =>
    by_cases h1 : (c :: cs).all isJsSpace
    · simp [validateSessionName, validateSessionNameErrors, h1]
    · by_cases h2 : (c :: cs).length > 100
      · have h3 : ¬ (cs.length ≤ 99) := by
          simp [List.length_cons] at h2
          omega
        simp [validateSessionName, validateSessionNameErrors, h1, h2, h3]
      · have h3 : cs.length ≤ 99 := by
          simp [List.length_cons] at h2
          omega
        by_cases h4 : (c :: cs).all sessionNameCharOk
        · simp [validateSessionName, validateSessionNameErrors,
            sessionNamePatternTest, h1, h2, h3, h4]
        · simp [validateSessionName, validateSessionNameErrors,
            sessionNamePatternTest, h1, h2, h3, h4]

/-- C10: calling `pauseRecording` with no recorder, while not recording, or
while already paused leaves the whole engine state unchanged, and calling
`resumeRecording` while not paused (or with no recorder, or while not
recording) likewise leaves it unchanged; neither raises an error. -/
theorem pause_resume_noop (s : AudioState) :
    (s.recorder = none ∨ s.isRecording = false ∨ s.isPaused = true →
      pauseRecording s = s) ∧
    (s.recorder = none ∨ s.isRecording = false ∨ s.isPaused = false →
      resumeRecording s = s) := by
  constructor
  · intro h
    unfold pauseRecording
    rcases hr : s.recorder with _ | r
    · rfl
    · rcases h with h | h | h
      · simp [hr] at h
      · simp [h]
      · simp [h]
  · intro h
    unfold resumeRecording
    rcases hr : s.recorder with _ | r
    · rfl
    · rcases h with h | h | h
      · simp [hr] at h
      · simp [h]
      · simp [h]

/-- C10 witness: on a state with no recorder, both pause and resume return the
state unchanged. -/
theorem pause_resume_noop_witness :
    pauseRecording c10State = c10State ∧ resumeRecording c10State = c10State :=
  ⟨(pause_resume_noop c10State).1 (Or.inl rfl),
    (pause_resume_noop c10State).2 (Or.inl rfl)⟩

/-- Overriding an absent stored value keeps the update's value. -/
theorem overrideOpt_none (a : Option α) : overrideOpt a none = a := by
  cases a <;> rfl

/-- Writing an update map into a fresh store stores exactly that map. -/
theorem updateSettings_empty (x : SettingsStore) :
    updateSettings emptySettingsStore x = x := by
  cases x
  simp [updateSettings, emptySettingsStore, overrideOpt_none]

/-- C6: for every partial settings map that does not write conflicting values
through an alias pair, reading after writing into a fresh store yields the
map overlaid on the defaults for every missing key, with either written alias
observed through both alias fields. -/
theorem settings_roundtrip (x : SettingsStore) (h : aliasConsistent x) :
    getSettings (updateSettings emptySettingsStore x) = specSettingsRead x := by
  rw [updateSettings_empty]
  obtain ⟨h1, h2⟩ := h
  rcases x with ⟨t, af, f, aq, q, ase, si, ss, sl, idd⟩
  cases af <;> cases f <;> cases aq <;> cases q <;> cases t <;> cases ase <;>
    cases si <;> cases ss <;> cases sl <;> cases idd <;>
    first
      | rfl
      | simp_all [getSettings, specSettingsRead, firstSome, defaultSettings]

/-- C6 witness: writing only the `format` alias and a split interval is read
back as those two values overlaid on the defaults, with `format` visible
through both alias fields. -/
theorem settings_roundtrip_witness :
    aliasConsistent c6Update ∧
    getSettings (updateSettings emptySettingsStore c6Update) =
      specSettingsRead c6Update :=
  have hc : aliasConsistent c6Update := ⟨Or.inl rfl, Or.inl rfl⟩
  ⟨hc, settings_roundtrip c6Update hc⟩

/-- The empty needle is a substring of every character list. -/
theorem infixOf_nil (l : List Char) : infixOf [] l = true := by
  cases l with
  | nil => rfl
  | cons c cs => simp [infixOf, charsBeginWith]

/-- JavaScript `includes` with the empty string is always true. -/
theorem strIncludes_empty (h : String) : strIncludes h "" = true :=
  infixOf_nil h.data

/-- C4 counterexample: against a catalog holding one session named `alpha`
with tag `beta`, the query `alpha beta` returns nothing (the source matches
the whole lowercased query as one substring), while the tokenized AND
semantics of the claim returns the session. -/
theorem searchSessions_tokenization_counterexample :
    searchSessions "alpha beta" [ceSession] = [] ∧
    specSearch "alpha beta" [ceSession] = [ceSession] := by
  constructor <;> rfl

/-- C4 (amended): `search` keeps exactly the sessions in which the whole
query, lowercased, occurs as a substring of the lowercased session name, of
some lowercased tag, or of some lowercased note — the query is never
tokenized.  The empty query matches every session and so behaves as
`list_sessions`. -/
theorem searchSessions_characterization (q : String) (ss : List Session)
    (s : Session) :
    searchSessions "" ss = ss ∧
    (s ∈ searchSessions q ss ↔
      s ∈ ss ∧
      (strIncludes (lowerStr s.metadata.sessionName) (lowerStr q) ||
        s.tags.any (fun t => strIncludes (lowerStr t) (lowerStr q)) ||
        s.notes.any (fun n => strIncludes (lowerStr n) (lowerStr q))) = true) := by
  constructor
  · apply List.filter_eq_self.mpr
    intro a _
    have he : lowerStr "" = "" := rfl
    simp [he, strIncludes_empty]
  · simp [searchSessions, List.mem_filter]

/-- C9 counterexample: deleting session `s9` empties the blob store but the
`sessions` collection still holds the session's metadata record afterwards,
against the claim that neither the record nor the blobs remain. -/
theorem deleteSession_keeps_record_counterexample :
    deleteSessionSvc "s9" c9Fst [c9Session] =
      Except.ok ({ files := [], audioBlobs := [] }, [c9Session]) := by
  rfl

/-- C9 (amended): when the session's file reference exists,
`delete_session` removes the session's blob and file reference from the blob
store and succeeds, but it does not remove the session's metadata record
from the sessions collection. -/
theorem deleteSession_spec (id : String) (fst : FileSystemState)
    (sessions : List Session) (ref : FileReference)
    (href : getFileReference id fst = some ref)
    (hbid : (pathLastComponent ref.path).isEmpty = false) :
    deleteSessionSvc id fst sessions =
      Except.ok
        ({ files := fst.files.filter (fun f => f.id != ref.id),
           audioBlobs :=
             fst.audioBlobs.filter (fun b => b.id != pathLastComponent ref.path) },
          sessions) := by
  simp [deleteSessionSvc, href, deleteAudioFile, hbid]

/-- C9 witness: the amended statement evaluated on the `s9` fixture store. -/
theorem deleteSession_spec_witness :
    deleteSessionSvc "s9" c9Fst [c9Session] =
      Except.ok
        ({ files := c9Fst.files.filter (fun f => f.id != c9Ref.id),
           audioBlobs :=
             c9Fst.audioBlobs.filter
               (fun b => b.id != pathLastComponent c9Ref.path) },
          [c9Session]) :=
  deleteSession_spec "s9" c9Fst [c9Session] c9Ref rfl rfl

/-- C7: a startup checkpoint strictly older than 24 hours (86400000 ms) is
purged from the store and a younger one is kept; a kept checkpoint is only
offered — declining the prompt changes no engine field and leaves the slot in
place, while consenting adopts the saved session and clears the slot. -/
theorem recovery_startup_policy (now : Int) (st : RecoveryState)
    (s : AudioState) :
    (now - st.startTime > 86400000 →
      cleanupStaleRecovery now (some st) = none) ∧
    (¬ now - st.startTime > 86400000 →
      cleanupStaleRecovery now (some st) = some st) ∧
    startRecoveryPhase s (some st) false = (s, some st) ∧
    (startRecoveryPhase s (some st) true).snd = none ∧
    (startRecoveryPhase s (some st) true).fst.currentSessionName =
      st.sessionName ∧
    (startRecoveryPhase s (some st) true).fst.currentDuration = st.duration := by
  refine ⟨?_, ?_, rfl, rfl, rfl, rfl⟩
  · intro h
    simp [cleanupStaleRecovery, h]
  · intro h
    simp [cleanupStaleRecovery, h]

/-- C7 witness: a checkpoint written at millisecond 0 is purged at
86400001 ms, kept at 86400000 ms, and declining recovery changes nothing. -/
theorem recovery_startup_policy_witness :
    cleanupStaleRecovery 86400001 (some c7Recovery) = none ∧
    cleanupStaleRecovery 86400000 (some c7Recovery) = some c7Recovery ∧
    startRecoveryPhase c10State (some c7Recovery) false =
      (c10State, some c7Recovery) ∧
    (startRecoveryPhase c10State (some c7Recovery) true).snd = none :=
  ⟨(recovery_startup_policy 86400001 c7Recovery c10State).1 (by decide),
    (recovery_startup_policy 86400000 c7Recovery c10State).2.1 (by decide),
    (recovery_startup_policy 86400000 c7Recovery c10State).2.2.1,
    (recovery_startup_policy 86400000 c7Recovery c10State).2.2.2.1⟩

/-- C1: at a chunk delivery two minutes into a recording configured with
`splitInterval = 1` minute, the trigger condition of `checkSplitConditions`
holds, yet the chunk handler installed by `startRecording` only persists the
chunk: it neither consults the split triggers (the recorder and
`lastSplitTime` are untouched, so no split happens) nor grows the in-flight
chunk buffer that the 100-chunk memory guard of the post-split handler
watches. -/
theorem chunkDelivery_skips_split_check :
    splitTriggered c1State 120000 = true ∧
    (ondataInitial c1State 1000 "fresh" { files := [], audioBlobs := [] }).fst.recorder =
      c1State.recorder ∧
    (ondataInitial c1State 1000 "fresh" { files := [], audioBlobs := [] }).fst.lastSplitTime =
      c1State.lastSplitTime ∧
    (ondataInitial c1State 1000 "fresh" { files := [], audioBlobs := [] }).fst.audioChunks =
      [] ∧
    (ondataInitial c1State 1000 "fresh" { files := [], audioBlobs := [] }).snd.audioBlobs =
      [{ id := "sid1", path := "recordings/sid1", size := 1000 }] := by
  refine ⟨?_, rfl, rfl, rfl, rfl⟩
  decide

/-- C3 counterexample: on the timeout path of `stopRecording` the promise is
rejected with the timeout error — no `SessionMetadata` value (synthetic or
otherwise) is returned to the caller. -/
theorem stopTimeout_no_metadata_counterexample :
    (stopOnTimeout c5State).snd =
      Except.error "Recording stop operation timed out" ∧
    (stopOnTimeout c5State).fst.recorder = none := by
  exact ⟨rfl, rfl⟩

/-- C3 (amended): `stop` is bounded by a hard 10-second timeout; on timeout
the engine performs emergency cleanup (recorder destroyed, media stream
stopped, timers cleared, flags reset) and rejects with the timeout error,
producing no metadata. -/
theorem stopTimeout_behavior (s : AudioState) :
    stopTimeoutMs = 10000 ∧
    (stopOnTimeout s).fst.recorder = none ∧
    (stopOnTimeout s).fst.mediaStream = false ∧
    (stopOnTimeout s).fst.isRecording = false ∧
    (stopOnTimeout s).fst.recordingTimer = false ∧
    (stopOnTimeout s).snd = Except.error "Recording stop operation timed out" := by
  exact ⟨rfl, rfl, rfl, rfl, rfl, rfl⟩

/-- C5: starting while a recording is in progress does fail, but the failure
path mutates the engine state: the catch-all handler runs `cleanup`, which
destroys the live recorder, clears the recording flag and zeroes the
duration, and the error is rethrown in wrapped form rather than verbatim. -/
theorem startWhileRecording_mutates_state :
    c5State.isRecording = true ∧
    (startRecordingGuard c5State none false).snd =
      StartStep.failed "Failed to start recording: Recording is already in progress" ∧
    (startRecordingGuard c5State none false).fst.fst.isRecording = false ∧
    (startRecordingGuard c5State none false).fst.fst.recorder = none ∧
    (startRecordingGuard c5State none false).fst.fst.currentDuration = 0 := by
  exact ⟨rfl, rfl, rfl, rfl, rfl⟩

/-- C2: for a recording with an assigned session id, the stop-callback path
resolves with metadata carrying the final blob's size, name and duration;
the final segment blob is persisted, and the session record written, exactly
when the final blob is non-empty; and the recovery checkpoint is cleared in
either case before the metadata is returned. -/
theorem stopRecording_finalize_spec (s : AudioState) (fst : FileSystemState)
    (sessions : List Session) (slot : Option RecoveryState) (n : Nat)
    (sid : String) (hsid : s.currentSessionId = some sid) :
    ∃ s2 fst2 sess2 md,
      stopFinalize s fst sessions slot n =
        Except.ok (s2, fst2, sess2, (none : Option RecoveryState), md) ∧
      md.fileSize = n ∧ md.sessionName = s.currentSessionName ∧
      md.duration = s.currentDuration ∧
      (0 < n →
        (∃ b ∈ fst2.audioBlobs, b.id = sid ∧ b.size = n) ∧
        (∃ t ∈ sess2, t.id = sid ∧ t.metadata.fileSize = n)) ∧
      (n = 0 → fst2 = fst ∧ sess2 = sessions) := by
  rcases Nat.eq_zero_or_pos n with hn | hn
  · subst hn
    refine ⟨cleanup s, fst, sessions,
      { sessionName := s.currentSessionName,
        startTime := s.recordingStartTime.getD 0,
        duration := s.currentDuration, fileSize := 0,
        format := s.options.format, quality := s.options.quality },
      rfl, rfl, rfl, rfl, ?_, ?_⟩
    · intro h
      exact absurd h (lt_irrefl 0)
    · intro _
      exact ⟨rfl, rfl⟩
  · have hn2 : n > 0 := hn
    unfold stopFinalize saveRecording
    rw [if_pos hn2, hsid]
    refine ⟨_, _, _, _, rfl, rfl, rfl, rfl, ?_, ?_⟩
    · intro _
      constructor
      · exact ⟨_, List.mem_append_right _ (List.mem_singleton_self _), rfl, rfl⟩
      · exact ⟨_, List.mem_append_right _ (List.mem_singleton_self _), rfl, rfl⟩
    · intro h
      omega

/-- C2 witness: stopping the fixture recording with a 5-byte final blob
persists the segment and session under `sid5`, clears the checkpoint, and
returns metadata of size 5. -/
theorem stopRecording_finalize_spec_witness :
    c5State.currentSessionId = some "sid5" ∧
    (∃ s2 fst2 sess2 md,
      stopFinalize c5State { files := [], audioBlobs := [] } [] none 5 =
        Except.ok (s2, fst2, sess2, (none : Option RecoveryState), md) ∧
      md.fileSize = 5 ∧ md.sessionName = c5State.currentSessionName ∧
      md.duration = c5State.currentDuration ∧
      (0 < 5 →
        (∃ b ∈ fst2.audioBlobs, b.id = "sid5" ∧ b.size = 5) ∧
        (∃ t ∈ sess2, t.id = "sid5" ∧ t.metadata.fileSize = 5)) ∧
      (5 = 0 → fst2 = { files := [], audioBlobs := [] } ∧ sess2 = [])) :=
  ⟨rfl,
    stopRecording_finalize_spec c5State { files := [], audioBlobs := [] } []
      none 5 "sid5" rfl⟩
